import Mathlib

/-!
Formal model of `scripts/render.py`, a single-file pipeline that
synthesizes narration audio, fetches a stock background video from one of
two providers (Pexels / Pixabay), downloads it, composites it with ffmpeg,
and validates the final artifact.

External effects are modelled explicitly: environment lookups are a
function `String → Option String`, subprocess exit codes, HTTP response
payloads and statuses, and the random draws are fields of a `World`
record, and each operation returns the list of observable events
(subprocess invocations, HTTP requests) it performed before returning or
raising.  Python exceptions become `Except Err`; the constructors of
`Err` correspond one-to-one to the distinct `raise` sites of the source
(named in the specification's error taxonomy: `scriptEmpty` is
`ConfigurationError`, `pexelsKeyMissing`/`pixabayKeyMissing` are
`CredentialError`, `noPexelsVideos`/`noPixabayVideos` are
`NoMediaFoundError`, `noPexelsLink`/`noPixabayLink` are
`NoDownloadableLinkError`, `commandFailed` covers the shared `run`
helper's failure (`SynthesisError`/`EncodingError` depending on the
command), `httpStatusError` is a transport error from
`raise_for_status`, and `outputInvalid` is `OutputValidationError`).

String operations of the source (`str.strip`, `str.upper`, the two
regex substitutions of `safe_filename`) are modelled character-wise on
`List Char`, faithful to Python semantics on ASCII data.
-/

namespace ShortsRenderer

/-- Errors of the pipeline, one constructor per `raise` site of
`scripts/render.py`. -/
inductive Err where
  | scriptEmpty
  | commandFailed : List String → Err
  | pexelsKeyMissing
  | pixabayKeyMissing
  | noPexelsVideos
  | noPixabayVideos
  | noPexelsLink
  | noPixabayLink
  | httpStatusError : Nat → Err
  | outputInvalid
deriving DecidableEq

/-- Observable external events: a subprocess invocation with its argument
vector, or an HTTP request to a URL. -/
inductive Event where
  | subprocessRun : List String → Event
  | httpGet : String → Event
deriving DecidableEq

/-- Model of the `env` helper (render.py line 13): the value of an
environment variable, where a missing variable or one set to the empty
string yields the fallback default. -/
def env (getenv : String → Option String) (name default : String) : String :=
  match getenv name with
  | some v => if v = "" then default else v
  | none => default

/-- Python whitespace test for the characters that occur in this model
(`str.strip` and the regex class `\s`). -/
def wsChar (c : Char) : Bool := c.isWhitespace

/-- Model of Python `str.strip()` on the character list: drop whitespace
from both ends. -/
def stripChars (l : List Char) : List Char :=
  ((l.dropWhile wsChar).reverse.dropWhile wsChar).reverse

/-- Model of Python `str.strip()` at the `String` level. -/
def pyStrip (s : String) : String := String.mk (stripChars s.data)

/-- Model of Python `str.upper()` (ASCII). -/
def pyUpper (s : String) : String := String.mk (s.data.map Char.toUpper)

/-- Characters kept by the regex substitution
`re.sub(r"[^a-zA-Z0-9 _-]", "", s)` of `safe_filename` (render.py
line 19). -/
def allowedChar (c : Char) : Bool :=
  (('a' ≤ c && c ≤ 'z') || ('A' ≤ c && c ≤ 'Z') || ('0' ≤ c && c ≤ '9')
    || (c == ' ') || (c == '_') || (c == '-'))

/-- Model of `re.sub(r"\s+", " ", s)` (render.py line 18): every maximal
run of whitespace characters is replaced by a single space.  The boolean
argument records whether the previous character was part of a whitespace
run. -/
def collapseWsAux : Bool → List Char → List Char
  | _, [] => []
  | prevWs, c :: cs =>
    if wsChar c then
      (if prevWs then collapseWsAux true cs else ' ' :: collapseWsAux true cs)
    else c :: collapseWsAux false cs

/-- Whitespace-run collapsing, starting outside a run. -/
def collapseWs (l : List Char) : List Char := collapseWsAux false l

/-- Model of `safe_filename` (render.py lines 17-20) on character lists:
collapse whitespace runs, strip, remove disallowed characters, truncate
to `maxLen`, strip again, and fall back to `"short"` when empty. -/
def safeFilenameCore (l : List Char) (maxLen : Nat) : List Char :=
  let s1 := stripChars (collapseWs l)
  let s2 := s1.filter allowedChar
  let s3 := stripChars (s2.take maxLen)
  if s3 = [] then "short".data else s3

/-- Model of `safe_filename` at the `String` level. -/
def safe_filename (s : String) (maxLen : Nat) : String :=
  String.mk (safeFilenameCore s.data maxLen)

/-- Model of `random.choice` on a two-element list (render.py line 32):
the boolean is the random draw, `false` selecting the first element. -/
def random_choice2 (a b : String) (coin : Bool) : String :=
  if coin then b else a

/-- Model of `random.choice` on a candidate list (render.py lines 70 and
93): the natural number is the random draw, reduced modulo the length.
The source only ever calls this on a non-empty list. -/
def random_choice (l : List String) (idx : Nat) : String :=
  l.getD (idx % l.length) ""

/-- Model of `pick_provider` (render.py lines 28-32): default an empty
(falsy) preference to `"BOTH"`, uppercase, strip, and either take the
recognized provider name or draw one of the two uniformly. -/
def pick_provider (provider : String) (coin : Bool) : String :=
  let p := pyStrip (pyUpper (if provider = "" then "BOTH" else provider))
  if p = "PEXELS" ∨ p = "PIXABAY" then p
  else random_choice2 "PEXELS" "PIXABAY" coin

/-- One entry of a Pexels result's `video_files` list: the `link`,
`width` and `height` keys, each possibly absent. -/
structure VideoFile where
  link : Option String
  width : Option Nat
  height : Option Nat
deriving DecidableEq

/-- One entry of the Pexels `videos` list. -/
structure PexelsVideo where
  video_files : List VideoFile
deriving DecidableEq

/-- A Pexels search response: HTTP status and parsed `videos` list (an
absent key parses as the empty list, as in `data.get("videos", [])`). -/
structure PexelsResponse where
  status : Nat
  videos : List PexelsVideo
deriving DecidableEq

/-- Truthiness of `f.get("link")` (render.py line 60): a present,
non-empty link. -/
def linkTruthy (f : VideoFile) : Option String :=
  match f.link with
  | some l => if l = "" then none else some l
  | none => none

/-- The candidate test of render.py line 60: a truthy link whose
reported width (default 0) is at most its reported height (default 1). -/
def pexelsPortraitLink (f : VideoFile) : Option String :=
  match linkTruthy f with
  | some l => if f.width.getD 0 ≤ f.height.getD 1 then some l else none
  | none => none

/-- The portrait candidate pool of render.py lines 57-61. -/
def pexelsPortraitPool (videos : List PexelsVideo) : List String :=
  (videos.flatMap PexelsVideo.video_files).filterMap pexelsPortraitLink

/-- The fallback pool of render.py lines 63-67: every truthy link. -/
def pexelsAllPool (videos : List PexelsVideo) : List String :=
  (videos.flatMap PexelsVideo.video_files).filterMap linkTruthy

/-- Search endpoint of provider A. -/
def pexelsSearchUrl : String := "https://api.pexels.com/videos/search"

/-- Model of `fetch_pexels_video` (render.py lines 44-70).  The `query`
string is sent as a request parameter and does not influence the control
flow modelled here; `resp` is the provider's response and `idx` the
random draw for the final choice. -/
def fetch_pexels_video (query api_key : String) (resp : PexelsResponse)
    (idx : Nat) : List Event × Except Err String :=
  if api_key = "" then ([], Except.error Err.pexelsKeyMissing)
  else
    let evs := [Event.httpGet (pexelsSearchUrl ++ "?query=" ++ query)]
    if 400 ≤ resp.status then (evs, Except.error (Err.httpStatusError resp.status))
    else if resp.videos = [] then (evs, Except.error Err.noPexelsVideos)
    else
      let portrait := pexelsPortraitPool resp.videos
      let candidates := if portrait = [] then pexelsAllPool resp.videos else portrait
      if candidates = [] then (evs, Except.error Err.noPexelsLink)
      else (evs, Except.ok (random_choice candidates idx))

/-- One quality-tier entry of a Pixabay hit's `videos` object: its `url`
key, possibly absent. -/
structure PixabayVariant where
  url : Option String
deriving DecidableEq

/-- The `videos` object of one Pixabay hit: the four quality tiers, each
possibly absent (`k in vids`). -/
structure PixabayHit where
  large : Option PixabayVariant
  medium : Option PixabayVariant
  small : Option PixabayVariant
  tiny : Option PixabayVariant
deriving DecidableEq

/-- A Pixabay search response: HTTP status and parsed `hits` list. -/
structure PixabayResponse where
  status : Nat
  hits : List PixabayHit
deriving DecidableEq

/-- Truthiness of `vids[k].get("url")` (render.py line 88). -/
def urlTruthy (v : PixabayVariant) : Option String :=
  match v.url with
  | some u => if u = "" then none else some u
  | none => none

/-- The fixed tier preference order of render.py line 87. -/
def tierOrder (h : PixabayHit) : List (Option PixabayVariant) :=
  [h.large, h.medium, h.small, h.tiny]

/-- The inner loop of render.py lines 87-90: walk the tiers in order and
take the first one that is present with a truthy url (the `break`). -/
def firstTierUrl : List (Option PixabayVariant) → Option String
  | [] => none
  | t :: rest =>
    match t with
    | some v =>
      match urlTruthy v with
      | some u => some u
      | none => firstTierUrl rest
    | none => firstTierUrl rest

/-- The candidate contributed by one Pixabay hit (at most one). -/
def hitCandidate (h : PixabayHit) : Option String := firstTierUrl (tierOrder h)

/-- The Pixabay candidate pool of render.py lines 84-90. -/
def pixabayPool (hits : List PixabayHit) : List String :=
  hits.filterMap hitCandidate

/-- Search endpoint of provider B. -/
def pixabaySearchUrl : String := "https://pixabay.com/api/videos/"

/-- Model of `fetch_pixabay_video` (render.py lines 72-93). -/
def fetch_pixabay_video (query api_key : String) (resp : PixabayResponse)
    (idx : Nat) : List Event × Except Err String :=
  if api_key = "" then ([], Except.error Err.pixabayKeyMissing)
  else
    let evs := [Event.httpGet (pixabaySearchUrl ++ "?q=" ++ query)]
    if 400 ≤ resp.status then (evs, Except.error (Err.httpStatusError resp.status))
    else if resp.hits = [] then (evs, Except.error Err.noPixabayVideos)
    else
      let candidates := pixabayPool resp.hits
      if candidates = [] then (evs, Except.error Err.noPixabayLink)
      else (evs, Except.ok (random_choice candidates idx))

/-- Model of the `run` helper (render.py lines 22-26): invoke the
subprocess and raise when its exit code is non-zero. -/
def run (cmd : List String) (exitCode : Nat) : List Event × Except Err Unit :=
  ([Event.subprocessRun cmd],
    if exitCode = 0 then Except.ok () else Except.error (Err.commandFailed cmd))

/-- Argument vector of the `edge-tts` invocation (render.py line 99). -/
def ttsCmd (voice text : String) : List String :=
  ["edge-tts", "--voice", voice, "--text", text, "--write-media", "out/voice.wav"]

/-- Model of `tts_edge` (render.py lines 96-99). -/
def tts_edge (text voice : String) (exitCode : Nat) : List Event × Except Err Unit :=
  run (ttsCmd voice text) exitCode

/-- Argument vector of the ffmpeg invocation (render.py lines 146-155). -/
def ffmpegCmd : List String :=
  ["ffmpeg", "-y", "-i", "out/bg.mp4", "-i", "out/voice.wav",
   "-vf", "scale=1080:1920:force_original_aspect_ratio=increase,crop=1080:1920",
   "-c:v", "libx264", "-pix_fmt", "yuv420p", "-c:a", "aac", "-shortest",
   "out/final.mp4"]

/-- The ambient state a single run of the pipeline observes: the process
environment, the wall clock, the exit codes of the two subprocesses, the
two random draws, the two providers' responses, the download status, and
the state of the final output file after encoding. -/
structure World where
  getenv : String → Option String
  timeNow : Nat
  ttsExit : Nat
  coin : Bool
  choiceIdx : Nat
  pexelsResp : PexelsResponse
  pixabayResp : PixabayResponse
  downloadStatus : Nat
  ffmpegExit : Nat
  finalExists : Bool
  finalSize : Nat

/-- The background-fetch step of `main` (render.py lines 124-132):
sanitize the topic into a query, pick the provider, and dispatch. -/
def fetchStep (w : World) : List Event × Except Err String :=
  let query := safe_filename (env w.getenv "TOPIC" "trend") 60
  let chosen := pick_provider (env w.getenv "PROVIDER" "BOTH") w.coin
  if chosen = "PEXELS" then
    fetch_pexels_video query (env w.getenv "PEXELS_API_KEY" "") w.pexelsResp w.choiceIdx
  else
    fetch_pixabay_video query (env w.getenv "PIXABAY_API_KEY" "") w.pixabayResp w.choiceIdx

/-- The structured success summary printed by `main`
(render.py lines 163-169). -/
structure Summary where
  job_id : String
  topic : String
  provider : String
  voice : String
  output : String
deriving DecidableEq

/-- Model of `main` (render.py lines 102-169): configuration, the
required-script check, TTS, provider fetch, download, ffmpeg encode, and
the final output validation, together with the trace of external events
performed before the function returned or raised. -/
def main (w : World) : List Event × Except Err Summary :=
  let job_id := env w.getenv "JOB_ID" ("job_" ++ toString w.timeNow)
  let topic := env w.getenv "TOPIC" "trend"
  let script := env w.getenv "SCRIPT" ""
  let provider_pref := env w.getenv "PROVIDER" "BOTH"
  let voice := env w.getenv "VOICE" "en-US-AriaNeural"
  if pyStrip script = "" then ([], Except.error Err.scriptEmpty)
  else
    match tts_edge script voice w.ttsExit with
    | (evs1, Except.error e) => (evs1, Except.error e)
    | (evs1, Except.ok _) =>
      match fetchStep w with
      | (evs2, Except.error e) => (evs1 ++ evs2, Except.error e)
      | (evs2, Except.ok video_url) =>
        let evs3 := evs1 ++ evs2 ++ [Event.httpGet video_url]
        if 400 ≤ w.downloadStatus then
          (evs3, Except.error (Err.httpStatusError w.downloadStatus))
        else
          match run ffmpegCmd w.ffmpegExit with
          | (evs4, Except.error e) => (evs3 ++ evs4, Except.error e)
          | (evs4, Except.ok _) =>
            if w.finalExists = false ∨ w.finalSize < 10000 then
              (evs3 ++ evs4, Except.error Err.outputInvalid)
            else
              (evs3 ++ evs4, Except.ok
                { job_id := job_id, topic := topic,
                  provider := pick_provider provider_pref w.coin,
                  voice := voice, output := "out/final.mp4" })

/-! ## General lemmas about the selection helpers -/

theorem random_choice_mem (l : List String) (idx : Nat) (h : l ≠ []) :
    random_choice l idx ∈ l := by
  have hlen : 0 < l.length := List.length_pos.mpr h
  have hlt : idx % l.length < l.length := Nat.mod_lt _ hlen
  simp only [random_choice, List.getD_eq_getElem?_getD,
    List.getElem?_eq_getElem hlt, Option.getD_some]
  exact List.getElem_mem hlt

theorem pexelsPortraitPool_eq_nil (videos : List PexelsVideo)
    (h : pexelsAllPool videos = []) : pexelsPortraitPool videos = [] := by
  rw [pexelsAllPool, List.filterMap_eq_nil_iff] at h
  rw [pexelsPortraitPool, List.filterMap_eq_nil_iff]
  intro f hf
  simp [pexelsPortraitLink, h f hf]

/-! ## Claim C7 -/

/-- C7: invoking either provider fetch with an empty API key yields the
credential error with an empty event trace, i.e. before any HTTP request
is attempted. -/
theorem c7_credential_before_http (qp qb : String) (rp : PexelsResponse)
    (rb : PixabayResponse) (ip ib : Nat) :
    fetch_pexels_video qp "" rp ip = ([], Except.error Err.pexelsKeyMissing)
    ∧ fetch_pixabay_video qb "" rb ib = ([], Except.error Err.pixabayKeyMissing) :=
  ⟨rfl, rfl⟩

/-! ## Claim C9 -/

/-- C9: the configuration reader treats an environment variable set to
the empty string exactly like an unset one (both yield the fallback
default) and returns any non-empty value unchanged. -/
theorem c9_env_empty_is_unset (g : String → Option String) (name default v : String) :
    (g name = some "" → env g name default = default)
    ∧ (g name = none → env g name default = default)
    ∧ (g name = some v → v ≠ "" → env g name default = v) := by
  constructor
  · intro h; simp [env, h]
  constructor
  · intro h; simp [env, h]
  · intro h hv; simp [env, h, hv]

/-- Witness for C9: setting PROVIDER to the empty string still yields
the default "BOTH"; a non-empty VOICE value is returned unchanged. -/
theorem c9_env_empty_is_unset_witness :
    env (fun n => if n = "PROVIDER" then some "" else none) "PROVIDER" "BOTH" = "BOTH"
    ∧ env (fun n => if n = "VOICE" then some "x" else none) "VOICE" "en" = "x" :=
  ⟨(c9_env_empty_is_unset (fun n => if n = "PROVIDER" then some "" else none)
      "PROVIDER" "BOTH" "x").1 (by decide),
   (c9_env_empty_is_unset (fun n => if n = "VOICE" then some "x" else none)
      "VOICE" "en" "x").2.2 (by decide) (by decide)⟩

/-! ## Claim C3 -/

/-- C3 counterexample: the preference " pexels " does not equal either
provider name case-insensitively (its uppercasing is " PEXELS "), so by
the claim the selection should be the uniform random draw; the code
strips surrounding whitespace and deterministically returns "PEXELS"
whatever the draw, differing from the draw that selects "PIXABAY". -/
theorem c3_counterexample :
    pyUpper " pexels " ≠ "PEXELS" ∧ pyUpper " pexels " ≠ "PIXABAY"
    ∧ pick_provider " pexels " false = "PEXELS"
    ∧ pick_provider " pexels " true = "PEXELS"
    ∧ random_choice2 "PEXELS" "PIXABAY" true = "PIXABAY" :=
  ⟨by decide, by decide, by decide, by decide, rfl⟩

/-- C3 (amended): after defaulting an empty (falsy) preference to
"BOTH", uppercasing and stripping surrounding whitespace, a string equal
to one of the two provider names selects that provider
deterministically; any other string yields the uniform random draw
between the two. -/
theorem c3_amended_pick_provider (s : String) (coin : Bool) :
    (pyStrip (pyUpper (if s = "" then "BOTH" else s)) = "PEXELS" →
      pick_provider s coin = "PEXELS")
    ∧ (pyStrip (pyUpper (if s = "" then "BOTH" else s)) = "PIXABAY" →
      pick_provider s coin = "PIXABAY")
    ∧ (pyStrip (pyUpper (if s = "" then "BOTH" else s)) ≠ "PEXELS" →
       pyStrip (pyUpper (if s = "" then "BOTH" else s)) ≠ "PIXABAY" →
      pick_provider s coin = random_choice2 "PEXELS" "PIXABAY" coin) := by
  refine ⟨fun h => ?_, fun h => ?_, fun h1 h2 => ?_⟩
  · simp [pick_provider, h]
  · simp [pick_provider, h]
  · simp [pick_provider, h1, h2]

/-- Witness for the amended C3 at concrete inputs. -/
theorem c3_amended_pick_provider_witness :
    pick_provider "Pexels" true = "PEXELS"
    ∧ pick_provider "BOTH" true = random_choice2 "PEXELS" "PIXABAY" true :=
  ⟨(c3_amended_pick_provider "Pexels" true).1 (by decide),
   (c3_amended_pick_provider "BOTH" true).2.2 (by decide) (by decide)⟩

/-! ## Claim C10 -/

/-- C10: a Pexels file variant with a non-empty link and no reported
width or height is classified portrait (a missing width defaults to 0, a
missing height to 1, and 0 ≤ 1), so its link always enters the portrait
candidate pool. -/
theorem c10_dimensionless_is_portrait (vs : List PexelsVideo) (v : PexelsVideo)
    (f : VideoFile) (l : String) (hv : v ∈ vs) (hf : f ∈ v.video_files)
    (hl : f.link = some l) (hne : l ≠ "") (hw : f.width = none) (hh : f.height = none) :
    l ∈ pexelsPortraitPool vs := by
  rw [pexelsPortraitPool, List.mem_filterMap]
  refine ⟨f, List.mem_flatMap.mpr ⟨v, hv, hf⟩, ?_⟩
  simp [pexelsPortraitLink, linkTruthy, hl, hne, hw, hh]

/-- Witness for C10 at a concrete dimension-less variant. -/
theorem c10_dimensionless_is_portrait_witness :
    "http://v.example/clip.mp4" ∈ pexelsPortraitPool
      [{ video_files := [{ link := some "http://v.example/clip.mp4",
                           width := none, height := none }] }] :=
  c10_dimensionless_is_portrait
    [{ video_files := [{ link := some "http://v.example/clip.mp4",
                         width := none, height := none }] }]
    { video_files := [{ link := some "http://v.example/clip.mp4",
                        width := none, height := none }] }
    { link := some "http://v.example/clip.mp4", width := none, height := none }
    "http://v.example/clip.mp4"
    (by decide) (by decide) rfl (by decide) rfl rfl

/-! ## Claim C6 -/

/-- C6: for both providers a successful search response with zero
results raises the no-media error, a response with results but no
extractable downloadable link raises the distinct no-link error, and
otherwise a URL is returned. -/
theorem c6_no_media_vs_no_link (qp qb api_key : String) (rp : PexelsResponse)
    (rb : PixabayResponse) (idx : Nat) (hk : api_key ≠ "")
    (hsp : rp.status < 400) (hsb : rb.status < 400) :
    (rp.videos = [] →
      (fetch_pexels_video qp api_key rp idx).2 = Except.error Err.noPexelsVideos)
    ∧ (rp.videos ≠ [] → pexelsAllPool rp.videos = [] →
      (fetch_pexels_video qp api_key rp idx).2 = Except.error Err.noPexelsLink)
    ∧ (pexelsAllPool rp.videos ≠ [] →
      ∃ u, (fetch_pexels_video qp api_key rp idx).2 = Except.ok u)
    ∧ (rb.hits = [] →
      (fetch_pixabay_video qb api_key rb idx).2 = Except.error Err.noPixabayVideos)
    ∧ (rb.hits ≠ [] → pixabayPool rb.hits = [] →
      (fetch_pixabay_video qb api_key rb idx).2 = Except.error Err.noPixabayLink)
    ∧ (rb.hits ≠ [] → pixabayPool rb.hits ≠ [] →
      ∃ u, (fetch_pixabay_video qb api_key rb idx).2 = Except.ok u) := by
  refine ⟨fun h => ?_, fun h1 h2 => ?_, fun hall => ?_, fun h => ?_, fun h1 h2 => ?_,
    fun h1 h2 => ?_⟩
  · simp [fetch_pexels_video, hk, Nat.not_le.mpr hsp, h]
  · simp [fetch_pexels_video, hk, Nat.not_le.mpr hsp, h1, h2,
      pexelsPortraitPool_eq_nil rp.videos h2]
  · have hv : rp.videos ≠ [] := by
      intro hnil
      apply hall
      rw [hnil]
      rfl
    by_cases hport : pexelsPortraitPool rp.videos = []
    · exact ⟨random_choice (pexelsAllPool rp.videos) idx,
        by simp [fetch_pexels_video, hk, Nat.not_le.mpr hsp, hv, hport, hall]⟩
    · exact ⟨random_choice (pexelsPortraitPool rp.videos) idx,
        by simp [fetch_pexels_video, hk, Nat.not_le.mpr hsp, hv, hport]⟩
  · simp [fetch_pixabay_video, hk, Nat.not_le.mpr hsb, h]
  · simp [fetch_pixabay_video, hk, Nat.not_le.mpr hsb, h1, h2]
  · exact ⟨random_choice (pixabayPool rb.hits) idx,
      by simp [fetch_pixabay_video, hk, Nat.not_le.mpr hsb, h1, h2]⟩

/-- Witness for C6: zero-result responses raise the no-media errors, and
a response whose only variant lacks a link raises the no-link error. -/
theorem c6_no_media_vs_no_link_witness :
    (fetch_pexels_video "q" "k" { status := 200, videos := [] } 0).2
      = Except.error Err.noPexelsVideos
    ∧ (fetch_pexels_video "q" "k"
        { status := 200,
          videos := [{ video_files := [{ link := none, width := none, height := none }] }] } 0).2
      = Except.error Err.noPexelsLink
    ∧ (fetch_pixabay_video "q" "k" { status := 200, hits := [] } 0).2
      = Except.error Err.noPixabayVideos :=
  ⟨(c6_no_media_vs_no_link "q" "q" "k" { status := 200, videos := [] }
      { status := 200, hits := [] } 0 (by decide) (by decide) (by decide)).1 rfl,
   (c6_no_media_vs_no_link "q" "q" "k"
      { status := 200,
        videos := [{ video_files := [{ link := none, width := none, height := none }] }] }
      { status := 200, hits := [] } 0 (by decide) (by decide) (by decide)).2.1
      (by decide) rfl,
   (c6_no_media_vs_no_link "q" "q" "k" { status := 200, videos := [] }
      { status := 200, hits := [] } 0 (by decide) (by decide) (by decide)).2.2.2.1 rfl⟩

/-! ## Claim C4 -/

/-- Claim-side reading for C4: the URLs carried by the file variants
whose reported dimensions classify them as portrait — the subset the
claim says every selection is drawn from. -/
def specPortraitUrls (videos : List PexelsVideo) : List String :=
  (videos.flatMap PexelsVideo.video_files).filterMap (fun f =>
    if f.width.getD 0 ≤ f.height.getD 1 then f.link else none)

/-- A Pexels response whose only portrait variant carries no link, next
to a landscape variant that does. -/
def respC4 : PexelsResponse :=
  { status := 200,
    videos := [{ video_files :=
      [{ link := none, width := some 100, height := some 200 },
       { link := some "http://x.example/land.mp4",
         width := some 200, height := some 100 }] }] }

/-- C4 counterexample: the response has a file variant with width ≤
height, yet the selected URL is the landscape variant's link, which is
not the URL of any portrait variant — the code's portrait pool only
keeps variants that also carry a link, and falls back to all links when
that pool is empty. -/
theorem c4_counterexample :
    (∃ v ∈ respC4.videos, ∃ f ∈ v.video_files, f.width.getD 0 ≤ f.height.getD 1)
    ∧ (fetch_pexels_video "q" "key" respC4 0).2 = Except.ok "http://x.example/land.mp4"
    ∧ "http://x.example/land.mp4" ∉ specPortraitUrls respC4.videos :=
  ⟨by decide, rfl, by decide⟩

/-- C4 (amended): whenever at least one file variant with a usable
(non-empty) link has width ≤ height, the selected URL is drawn from the
pool of such linked portrait variants; only when that pool is empty does
selection fall back to the pool of all linked variants. -/
theorem c4_amended_portrait_priority (q api_key : String) (rp : PexelsResponse)
    (idx : Nat) (hk : api_key ≠ "") (hs : rp.status < 400) :
    (pexelsPortraitPool rp.videos ≠ [] →
      ∃ u, (fetch_pexels_video q api_key rp idx).2 = Except.ok u
        ∧ u ∈ pexelsPortraitPool rp.videos)
    ∧ (pexelsPortraitPool rp.videos = [] → pexelsAllPool rp.videos ≠ [] →
      ∃ u, (fetch_pexels_video q api_key rp idx).2 = Except.ok u
        ∧ u ∈ pexelsAllPool rp.videos) := by
  constructor
  · intro hport
    have hv : rp.videos ≠ [] := by
      intro hnil
      apply hport
      rw [hnil]
      rfl
    refine ⟨random_choice (pexelsPortraitPool rp.videos) idx, ?_,
      random_choice_mem _ _ hport⟩
    simp [fetch_pexels_video, hk, Nat.not_le.mpr hs, hv, hport]
  · intro hport hall
    have hv : rp.videos ≠ [] := by
      intro hnil
      apply hall
      rw [hnil]
      rfl
    refine ⟨random_choice (pexelsAllPool rp.videos) idx, ?_,
      random_choice_mem _ _ hall⟩
    simp [fetch_pexels_video, hk, Nat.not_le.mpr hs, hv, hport, hall]

/-- A Pexels response with one linked portrait variant. -/
def respC4w : PexelsResponse :=
  { status := 200,
    videos := [{ video_files :=
      [{ link := some "http://p.example/port.mp4",
         width := some 1080, height := some 1920 }] }] }

/-- Witness for the amended C4 at a concrete response. -/
theorem c4_amended_portrait_priority_witness :
    ∃ u, (fetch_pexels_video "q" "k" respC4w 0).2 = Except.ok u
      ∧ u ∈ pexelsPortraitPool respC4w.videos :=
  (c4_amended_portrait_priority "q" "k" respC4w 0 (by decide) (by decide)).1 (by decide)

/-! ## Claim C5 -/

/-- Claim-side reading for C5: the first quality tier present in the
fixed descending order, whatever url it carries. -/
def specFirstPresentTier (h : PixabayHit) : Option PixabayVariant :=
  (tierOrder h).findSome? id

/-- A Pixabay hit whose large tier is present but carries no url, while
the medium tier carries one. -/
def hitC5 : PixabayHit :=
  { large := some { url := none },
    medium := some { url := some "http://m.example/m.mp4" },
    small := none, tiny := none }

/-- The response containing only `hitC5`. -/
def respC5 : PixabayResponse := { status := 200, hits := [hitC5] }

/-- C5 counterexample: the first tier present in the fixed order is the
large tier, which carries no url, so by the claim the result contributes
no candidate; the code skips it and takes the medium tier's url. -/
theorem c5_counterexample :
    specFirstPresentTier hitC5 = some { url := none }
    ∧ (specFirstPresentTier hitC5).bind PixabayVariant.url = none
    ∧ (fetch_pixabay_video "q" "key" respC5 0).2 = Except.ok "http://m.example/m.mp4" :=
  ⟨rfl, rfl, rfl⟩

theorem firstTierUrl_eq_findSome (ts : List (Option PixabayVariant)) :
    firstTierUrl ts = ts.findSome? (fun t => t.bind urlTruthy) := by
  induction ts with
  | nil => rfl
  | cons t rest ih =>
    cases t with
    | none => simp [firstTierUrl, List.findSome?_cons, ih]
    | some v =>
      cases hu : urlTruthy v with
      | none => simp [firstTierUrl, List.findSome?_cons, hu, ih]
      | some u => simp [firstTierUrl, List.findSome?_cons, hu]

/-- C5 (amended): each Pixabay result contributes at most one candidate,
namely the url of the first tier in the fixed descending order large,
medium, small, tiny that is present and carries a non-empty url; and the
returned URL is drawn from the pool so built. -/
theorem c5_amended_tier_order (q api_key : String) (rb : PixabayResponse) (idx : Nat)
    (hk : api_key ≠ "") (hs : rb.status < 400) (hh : rb.hits ≠ []) :
    pixabayPool rb.hits
      = rb.hits.filterMap (fun h =>
          ([h.large, h.medium, h.small, h.tiny]).findSome? (fun t => t.bind urlTruthy))
    ∧ (pixabayPool rb.hits ≠ [] →
        ∃ u, (fetch_pixabay_video q api_key rb idx).2 = Except.ok u
          ∧ u ∈ pixabayPool rb.hits) := by
  constructor
  · unfold pixabayPool
    congr 1
    funext h
    simp only [hitCandidate, tierOrder]
    rw [firstTierUrl_eq_findSome]
  · intro hp
    refine ⟨random_choice (pixabayPool rb.hits) idx, ?_, random_choice_mem _ _ hp⟩
    simp [fetch_pixabay_video, hk, Nat.not_le.mpr hs, hh, hp]

/-- A Pixabay response with a single hit carrying only a medium tier. -/
def respC5w : PixabayResponse :=
  { status := 200,
    hits := [{ large := none, medium := some { url := some "http://m.example/good.mp4" },
               small := none, tiny := none }] }

/-- Witness for the amended C5 at a concrete response. -/
theorem c5_amended_tier_order_witness :
    pixabayPool respC5w.hits
      = respC5w.hits.filterMap (fun h =>
          ([h.large, h.medium, h.small, h.tiny]).findSome? (fun t => t.bind urlTruthy)) :=
  (c5_amended_tier_order "q" "k" respC5w 0 (by decide) (by decide) (by decide)).1

/-! ## Claim C8: lemmas about the sanitizer's building blocks -/

/-- Absence of two adjacent whitespace characters. -/
def noDoubleWs : List Char → Bool
  | [] => true
  | [_] => true
  | a :: b :: rest => (!(wsChar a && wsChar b)) && noDoubleWs (b :: rest)

theorem noDoubleWs_tail (a : Char) (t : List Char) (h : noDoubleWs (a :: t) = true) :
    noDoubleWs t = true := by
  cases t with
  | nil => rfl
  | cons b r =>
    simp only [noDoubleWs, Bool.and_eq_true] at h
    exact h.2

theorem noDoubleWs_head (a d : Char) (r : List Char)
    (hnd : noDoubleWs (a :: d :: r) = true) (ha : wsChar a = true) :
    wsChar d = false := by
  have heq : noDoubleWs (a :: d :: r)
      = ((!(wsChar a && wsChar d)) && noDoubleWs (d :: r)) := rfl
  rw [heq, Bool.and_eq_true] at hnd
  have h1 := hnd.1
  rw [ha] at h1
  cases hd : wsChar d
  · rfl
  · rw [hd] at h1
    simp at h1

theorem head_dropWhile_false {α : Type} (p : α → Bool) (l : List α) (c : α)
    (h : (l.dropWhile p).head? = some c) : p c = false := by
  induction l with
  | nil => simp [List.dropWhile] at h
  | cons a t ih =>
    by_cases ha : p a = true
    · rw [List.dropWhile_cons_of_pos ha] at h
      exact ih h
    · rw [List.dropWhile_cons_of_neg ha] at h
      simp only [List.head?_cons, Option.some.injEq] at h
      subst h
      simpa using ha

theorem getLast_dropWhile {α : Type} (p : α → Bool) (l : List α) (c : α)
    (h : (l.dropWhile p).getLast? = some c) : l.getLast? = some c := by
  obtain ⟨t, ht⟩ := List.dropWhile_suffix (l := l) p
  rw [← ht, List.getLast?_append, h]
  rfl

theorem stripChars_head (y : List Char) (c : Char)
    (h : (stripChars y).head? = some c) : wsChar c = false := by
  rw [stripChars, List.head?_reverse] at h
  have h2 := getLast_dropWhile wsChar _ c h
  rw [List.getLast?_reverse] at h2
  exact head_dropWhile_false wsChar y c h2

theorem stripChars_last (y : List Char) (c : Char)
    (h : (stripChars y).getLast? = some c) : wsChar c = false := by
  rw [stripChars, List.getLast?_reverse] at h
  exact head_dropWhile_false wsChar _ c h

theorem stripChars_subset (y : List Char) : ∀ c ∈ stripChars y, c ∈ y := by
  intro c hc
  rw [stripChars, List.mem_reverse] at hc
  have h1 := (List.dropWhile_suffix wsChar).sublist.subset hc
  rw [List.mem_reverse] at h1
  exact (List.dropWhile_suffix wsChar).sublist.subset h1

theorem stripChars_length_le (y : List Char) : (stripChars y).length ≤ y.length := by
  rw [stripChars, List.length_reverse]
  calc (List.dropWhile wsChar (List.dropWhile wsChar y).reverse).length
      ≤ (List.dropWhile wsChar y).reverse.length :=
        (List.dropWhile_suffix wsChar).length_le
    _ = (List.dropWhile wsChar y).length := List.length_reverse _
    _ ≤ y.length := (List.dropWhile_suffix wsChar).length_le

theorem stripChars_eq_self (l : List Char)
    (hh : ∀ c, l.head? = some c → wsChar c = false)
    (hl : ∀ c, l.getLast? = some c → wsChar c = false) :
    stripChars l = l := by
  have h1 : List.dropWhile wsChar l = l := by
    cases l with
    | nil => rfl
    | cons a t =>
      rw [List.dropWhile_cons_of_neg (by simp [hh a rfl])]
  rw [stripChars, h1]
  have h2 : List.dropWhile wsChar l.reverse = l.reverse := by
    cases hr : l.reverse with
    | nil => rfl
    | cons a t =>
      have ha : l.getLast? = some a := by
        rw [← List.head?_reverse, hr]
        rfl
      rw [List.dropWhile_cons_of_neg (by simp [hl a ha])]
  rw [h2, List.reverse_reverse]

theorem dropWhile_eq_nil_of_all {α : Type} (p : α → Bool) (l : List α)
    (h : ∀ c ∈ l, p c = true) : l.dropWhile p = [] := by
  induction l with
  | nil => rfl
  | cons a t ih =>
    rw [List.dropWhile_cons_of_pos (h a (List.mem_cons_self a t))]
    exact ih fun c hc => h c (List.mem_cons_of_mem a hc)

theorem stripChars_eq_nil_of_all_ws (y : List Char) (h : ∀ c ∈ y, wsChar c = true) :
    stripChars y = [] := by
  rw [stripChars, dropWhile_eq_nil_of_all wsChar y h]
  rfl

theorem mem_collapseWsAux (l : List Char) (b : Bool) (c : Char)
    (h : c ∈ collapseWsAux b l) : c = ' ' ∨ (c ∈ l ∧ wsChar c = false) := by
  induction l generalizing b with
  | nil => simp [collapseWsAux] at h
  | cons a t ih =>
    by_cases ha : wsChar a = true
    · cases b with
      | true =>
        have hstep : collapseWsAux true (a :: t) = collapseWsAux true t := by
          simp [collapseWsAux, ha]
        rw [hstep] at h
        rcases ih true h with h1 | ⟨h2, h3⟩
        · exact Or.inl h1
        · exact Or.inr ⟨List.mem_cons_of_mem a h2, h3⟩
      | false =>
        have hstep : collapseWsAux false (a :: t) = ' ' :: collapseWsAux true t := by
          simp [collapseWsAux, ha]
        rw [hstep] at h
        rcases List.mem_cons.mp h with hc | hc
        · exact Or.inl hc
        · rcases ih true hc with h1 | ⟨h2, h3⟩
          · exact Or.inl h1
          · exact Or.inr ⟨List.mem_cons_of_mem a h2, h3⟩
    · have hstep : collapseWsAux b (a :: t) = a :: collapseWsAux false t := by
        simp [collapseWsAux, ha]
      rw [hstep] at h
      rcases List.mem_cons.mp h with hc | hc
      · subst hc
        exact Or.inr ⟨List.mem_cons_self _ _, by simpa using ha⟩
      · rcases ih false hc with h1 | ⟨h2, h3⟩
        · exact Or.inl h1
        · exact Or.inr ⟨List.mem_cons_of_mem a h2, h3⟩

theorem collapseWsAux_eq_self : ∀ (l : List Char) (b : Bool),
    (∀ c ∈ l, wsChar c = true → c = ' ') → noDoubleWs l = true →
    (b = true → ∀ c, l.head? = some c → wsChar c = false) →
    collapseWsAux b l = l
  | [], _, _, _, _ => rfl
  | a :: t, b, hsp, hnd, hb => by
    by_cases ha : wsChar a = true
    · have hbf : b = false := by
        cases b with
        | false => rfl
        | true => exact absurd ha (by simpa using hb rfl a rfl)
      subst hbf
      have haSp : a = ' ' := hsp a (List.mem_cons_self a t) ha
      have hth : true = true → ∀ c, t.head? = some c → wsChar c = false := by
        intro _ c hc
        cases t with
        | nil => simp at hc
        | cons d r =>
          simp only [List.head?_cons, Option.some.injEq] at hc
          rw [← hc]
          exact noDoubleWs_head a d r hnd ha
      have ht : collapseWsAux true t = t :=
        collapseWsAux_eq_self t true
          (fun c hc hw => hsp c (List.mem_cons_of_mem a hc) hw)
          (noDoubleWs_tail a t hnd) hth
      have hstep : collapseWsAux false (a :: t) = ' ' :: collapseWsAux true t := by
        simp [collapseWsAux, ha]
      rw [hstep, ht, haSp]
    · have ht : collapseWsAux false t = t :=
        collapseWsAux_eq_self t false
          (fun c hc hw => hsp c (List.mem_cons_of_mem a hc) hw)
          (noDoubleWs_tail a t hnd) (by simp)
      have hstep : collapseWsAux b (a :: t) = a :: collapseWsAux false t := by
        simp [collapseWsAux, ha]
      rw [hstep, ht]

theorem allowed_ws_is_space (c : Char) (ha : allowedChar c = true)
    (hw : wsChar c = true) : c = ' ' := by
  have hw2 : ((c = ' ' ∨ c = '\t') ∨ c = '\r') ∨ c = '\n' := by
    simpa [wsChar, Char.isWhitespace] using hw
  rcases hw2 with ((h | h) | h) | h
  · exact h
  all_goals (subst h; exact absurd ha (by decide))

theorem safeFilenameCore_body (l : List Char) (maxLen : Nat) :
    safeFilenameCore l maxLen =
      (if stripChars (((stripChars (collapseWs l)).filter allowedChar).take maxLen) = []
       then "short".data
       else stripChars (((stripChars (collapseWs l)).filter allowedChar).take maxLen)) := rfl

theorem safeFilenameCore_spec (l : List Char) (maxLen : Nat) (hml : 5 ≤ maxLen) :
    (∀ c ∈ safeFilenameCore l maxLen, allowedChar c = true)
    ∧ (∀ c, (safeFilenameCore l maxLen).head? = some c → wsChar c = false)
    ∧ (∀ c, (safeFilenameCore l maxLen).getLast? = some c → wsChar c = false)
    ∧ (safeFilenameCore l maxLen).length ≤ maxLen
    ∧ safeFilenameCore l maxLen ≠ [] := by
  rw [safeFilenameCore_body]
  by_cases h3 : stripChars (((stripChars (collapseWs l)).filter allowedChar).take maxLen) = []
  · rw [if_pos h3]
    have hshort : ("short".data : List Char) = ['s', 'h', 'o', 'r', 't'] := rfl
    rw [hshort]
    refine ⟨by decide, ?_, ?_, hml, by decide⟩
    · intro c hc
      simp only [List.head?_cons, Option.some.injEq] at hc
      subst hc
      decide
    · intro c hc
      rw [show (['s', 'h', 'o', 'r', 't'] : List Char).getLast? = some 't' from rfl] at hc
      simp only [Option.some.injEq] at hc
      subst hc
      decide
  · rw [if_neg h3]
    refine ⟨?_, stripChars_head _, stripChars_last _, ?_, h3⟩
    · intro c hc
      have h1 := stripChars_subset _ c hc
      have h2 := (List.take_sublist maxLen _).subset h1
      exact (List.mem_filter.mp h2).2
    · refine le_trans (stripChars_length_le _) ?_
      rw [List.length_take]
      exact min_le_left _ _

theorem safeFilenameCore_fixed (r : List Char) (maxLen : Nat)
    (hall : ∀ c ∈ r, allowedChar c = true)
    (hh : ∀ c, r.head? = some c → wsChar c = false)
    (hl : ∀ c, r.getLast? = some c → wsChar c = false)
    (hlen : r.length ≤ maxLen) (hne : r ≠ [])
    (hnd : noDoubleWs r = true) :
    safeFilenameCore r maxLen = r := by
  have hsp : ∀ c ∈ r, wsChar c = true → c = ' ' :=
    fun c hc hw => allowed_ws_is_space c (hall c hc) hw
  have h1 : collapseWs r = r := collapseWsAux_eq_self r false hsp hnd (by simp)
  have h2 : stripChars r = r := stripChars_eq_self r hh hl
  rw [safeFilenameCore_body, show collapseWs r = r from h1, h2,
    List.filter_eq_self.mpr hall, List.take_of_length_le hlen, h2, if_neg hne]

theorem safeFilenameCore_all_disallowed (l : List Char) (maxLen : Nat)
    (h : ∀ c ∈ l, allowedChar c = false) : safeFilenameCore l maxLen = "short".data := by
  have hsp : ∀ c ∈ ((stripChars (collapseWs l)).filter allowedChar), wsChar c = true := by
    intro c hc
    have hcAll : allowedChar c = true := (List.mem_filter.mp hc).2
    have hcMem : c ∈ collapseWs l := stripChars_subset _ c (List.mem_filter.mp hc).1
    rcases mem_collapseWsAux l false c hcMem with h1 | ⟨h2, _⟩
    · subst h1
      decide
    · exact absurd hcAll (by simp [h c h2])
  have hsp2 : ∀ c ∈ ((stripChars (collapseWs l)).filter allowedChar).take maxLen,
      wsChar c = true :=
    fun c hc => hsp c ((List.take_sublist maxLen _).subset hc)
  rw [safeFilenameCore_body, stripChars_eq_nil_of_all_ws _ hsp2, if_pos rfl]

/-! ## Claim C8 -/

/-- C8 counterexample: sanitizing "a . b" removes the dot between two
single spaces and leaves the double space "a  b"; a second sanitization
collapses it to "a b", so sanitization is not idempotent. -/
theorem c8_counterexample :
    safe_filename "a . b" 80 = "a  b"
    ∧ safe_filename "a  b" 80 = "a b"
    ∧ safe_filename (safe_filename "a . b" 80) 80 ≠ safe_filename "a . b" 80 :=
  ⟨by decide, by decide, by decide⟩

/-- C8 (amended): sanitization is idempotent on every input whose
sanitized form contains no two adjacent whitespace characters (removing
disallowed characters can merge two space runs, which only a second
pass collapses); and sanitizing a string of only disallowed characters
yields the fallback "short". The length bound 5 ≤ maxLen holds for both
lengths the source uses (60 and the default 80). -/
theorem c8_amended :
    (∀ (s : String) (maxLen : Nat), 5 ≤ maxLen →
      noDoubleWs (safe_filename s maxLen).data = true →
      safe_filename (safe_filename s maxLen) maxLen = safe_filename s maxLen)
    ∧ (∀ (s : String) (maxLen : Nat), (∀ c ∈ s.data, allowedChar c = false) →
      safe_filename s maxLen = "short") := by
  constructor
  · intro s maxLen hml hnd
    obtain ⟨h1, h2, h3, h4, h5⟩ := safeFilenameCore_spec s.data maxLen hml
    have hdata : (safe_filename s maxLen).data = safeFilenameCore s.data maxLen := rfl
    rw [hdata] at hnd
    show String.mk (safeFilenameCore (safe_filename s maxLen).data maxLen)
        = safe_filename s maxLen
    rw [hdata, safeFilenameCore_fixed (safeFilenameCore s.data maxLen) maxLen
      h1 h2 h3 h4 h5 hnd]
    rfl
  · intro s maxLen h
    show String.mk (safeFilenameCore s.data maxLen) = "short"
    rw [safeFilenameCore_all_disallowed s.data maxLen h]

/-- Witness for the amended C8 at concrete inputs. -/
theorem c8_amended_witness :
    safe_filename (safe_filename "hello world" 80) 80 = safe_filename "hello world" 80
    ∧ safe_filename "!!!" 80 = "short" :=
  ⟨c8_amended.1 "hello world" 80 (by decide) (by decide),
   c8_amended.2 "!!!" 80 (by decide)⟩

/-! ## Claim C2 -/

/-- C2: a script that is empty or whitespace-only makes the pipeline
raise the configuration error with an empty event trace, i.e. before any
subprocess or network call; a script with any non-whitespace content
(the claim's "non-empty" input, as its first conjunct delimits it) makes
the first external event the synthesizer invocation carrying exactly
that text and the configured voice. -/
theorem c2_script_required (w : World) :
    (pyStrip (env w.getenv "SCRIPT" "") = "" →
      main w = ([], Except.error Err.scriptEmpty))
    ∧ (pyStrip (env w.getenv "SCRIPT" "") ≠ "" →
      ∃ rest, (main w).1
        = Event.subprocessRun
            (ttsCmd (env w.getenv "VOICE" "en-US-AriaNeural")
              (env w.getenv "SCRIPT" "")) :: rest) := by
  constructor
  · intro h
    simp [main, h]
  · intro h
    by_cases ht : w.ttsExit = 0
    · rcases hfs : fetchStep w with ⟨evs2, r2⟩
      cases r2 with
      | error e =>
        exact ⟨evs2, by simp [main, tts_edge, run, h, ht, hfs]⟩
      | ok u =>
        by_cases hd : 400 ≤ w.downloadStatus
        · exact ⟨evs2 ++ [Event.httpGet u], by simp [main, tts_edge, run, h, ht, hfs, hd]⟩
        · by_cases hff : w.ffmpegExit = 0
          · by_cases hv : w.finalExists = false ∨ w.finalSize < 10000
            · exact ⟨evs2 ++ [Event.httpGet u] ++ [Event.subprocessRun ffmpegCmd],
                by simp [main, tts_edge, run, h, ht, hfs, hd, hff, hv]⟩
            · exact ⟨evs2 ++ [Event.httpGet u] ++ [Event.subprocessRun ffmpegCmd],
                by simp [main, tts_edge, run, h, ht, hfs, hd, hff, hv]⟩
          · exact ⟨evs2 ++ [Event.httpGet u] ++ [Event.subprocessRun ffmpegCmd],
              by simp [main, tts_edge, run, h, ht, hfs, hd, hff]⟩
    · exact ⟨[], by simp [main, tts_edge, run, h, ht]⟩

/-- World with a whitespace-only script. -/
def wBlank : World :=
  { getenv := fun n => if n = "SCRIPT" then some "   " else none,
    timeNow := 0, ttsExit := 0, coin := false, choiceIdx := 0,
    pexelsResp := { status := 200, videos := [] },
    pixabayResp := { status := 200, hits := [] },
    downloadStatus := 200, ffmpegExit := 0, finalExists := false, finalSize := 0 }

/-- World with the script "hello" and everything else unset. -/
def wScript : World :=
  { getenv := fun n => if n = "SCRIPT" then some "hello" else none,
    timeNow := 0, ttsExit := 1, coin := false, choiceIdx := 0,
    pexelsResp := { status := 200, videos := [] },
    pixabayResp := { status := 200, hits := [] },
    downloadStatus := 200, ffmpegExit := 0, finalExists := false, finalSize := 0 }

/-- Witness for C2: the whitespace-only script raises the configuration
error with no events, and the script "hello" is handed verbatim to the
synthesizer with the default voice as the first event. -/
theorem c2_script_required_witness :
    main wBlank = ([], Except.error Err.scriptEmpty)
    ∧ ∃ rest, (main wScript).1
        = Event.subprocessRun (ttsCmd "en-US-AriaNeural" "hello") :: rest :=
  ⟨(c2_script_required wBlank).1 (by decide),
   (c2_script_required wScript).2 (by decide)⟩

/-! ## Claim C1 -/

/-- World in which every stage succeeds and the final file exists with
size exactly 10000 bytes. -/
def wC1 : World :=
  { getenv := fun n =>
      if n = "SCRIPT" then some "hello world"
      else if n = "PROVIDER" then some "pexels"
      else if n = "PEXELS_API_KEY" then some "k" else none,
    timeNow := 0, ttsExit := 0, coin := false, choiceIdx := 0,
    pexelsResp :=
      { status := 200,
        videos := [{ video_files := [{ link := some "http://v.example/bg.mp4",
                                       width := some 1080, height := some 1920 }] }] },
    pixabayResp := { status := 200, hits := [] },
    downloadStatus := 200, ffmpegExit := 0, finalExists := true, finalSize := 10000 }

/-- C1 counterexample: the encoder reports exit status 0 and the final
file exists at exactly 10,000 bytes — a size that does not exceed the
10,000-byte floor — yet the pipeline succeeds (the code only rejects
sizes strictly below 10000). -/
theorem c1_counterexample :
    wC1.ffmpegExit = 0 ∧ wC1.finalSize = 10000
    ∧ (main wC1).2 = Except.ok
        { job_id := "job_0", topic := "trend", provider := "PEXELS",
          voice := "en-US-AriaNeural", output := "out/final.mp4" } :=
  ⟨rfl, rfl, rfl⟩

/-- C1 (amended): on every run that reaches the encoding step with a
successful encoder exit, the pipeline succeeds when the final file
exists with size at least the 10,000-byte floor and raises the output
validation error otherwise — in particular whenever the file is absent
or 0 bytes. -/
theorem c1_amended_output_validation (w : World) (url : String)
    (hs : pyStrip (env w.getenv "SCRIPT" "") ≠ "")
    (ht : w.ttsExit = 0)
    (hf : (fetchStep w).2 = Except.ok url)
    (hd : w.downloadStatus < 400)
    (hff : w.ffmpegExit = 0) :
    ((w.finalExists = true ∧ 10000 ≤ w.finalSize) → ∃ s, (main w).2 = Except.ok s)
    ∧ (¬(w.finalExists = true ∧ 10000 ≤ w.finalSize) →
        (main w).2 = Except.error Err.outputInvalid) := by
  obtain ⟨evs2, hfs⟩ : ∃ e, fetchStep w = (e, Except.ok url) :=
    ⟨(fetchStep w).1, by rw [← hf]⟩
  constructor
  · intro hgood
    have hmain : (main w).2 = Except.ok
        { job_id := env w.getenv "JOB_ID" ("job_" ++ toString w.timeNow),
          topic := env w.getenv "TOPIC" "trend",
          provider := pick_provider (env w.getenv "PROVIDER" "BOTH") w.coin,
          voice := env w.getenv "VOICE" "en-US-AriaNeural",
          output := "out/final.mp4" } := by
      simp [main, tts_edge, run, hs, ht, hfs, Nat.not_le.mpr hd, hff,
        hgood.1, Nat.not_lt.mpr hgood.2]
    exact ⟨_, hmain⟩
  · intro hbad
    have hcond : w.finalExists = false ∨ w.finalSize < 10000 := by
      by_cases he : w.finalExists = true
      · rcases Nat.lt_or_ge w.finalSize 10000 with h | h
        · exact Or.inr h
        · exact absurd ⟨he, h⟩ hbad
      · left
        revert he
        cases w.finalExists <;> simp
    simp [main, tts_edge, run, hs, ht, hfs, Nat.not_le.mpr hd, hff, hcond]

/-- World in which every stage succeeds but the final file is missing. -/
def wC1w : World :=
  { getenv := fun n =>
      if n = "SCRIPT" then some "hello world"
      else if n = "PROVIDER" then some "pexels"
      else if n = "PEXELS_API_KEY" then some "k" else none,
    timeNow := 0, ttsExit := 0, coin := false, choiceIdx := 0,
    pexelsResp :=
      { status := 200,
        videos := [{ video_files := [{ link := some "http://v.example/bg.mp4",
                                       width := some 1080, height := some 1920 }] }] },
    pixabayResp := { status := 200, hits := [] },
    downloadStatus := 200, ffmpegExit := 0, finalExists := false, finalSize := 0 }

/-- Witness for the amended C1: encoder exit 0 with an absent output
file makes the pipeline raise the validation error. -/
theorem c1_amended_output_validation_witness :
    (main wC1w).2 = Except.error Err.outputInvalid :=
  (c1_amended_output_validation wC1w "http://v.example/bg.mp4"
    (by decide) rfl rfl (by decide) rfl).2 (by simp [wC1w])

end ShortsRenderer
